import Mathlib

/-!
Verification of the planning computation engine of the keieiplan dashboard.

The numeric model uses exact rationals (`ℚ`) for Python floats.  Values that
the source may set to `np.nan` (or that the spec describes as possibly
`+inf`) are represented by the sum type `PyVal`, so that NaN and infinity
are distinguishable sentinels, exactly as in the NumPy values the source
produces.  Python `raise ValueError(msg)` is embedded as `Except.error msg`.
-/

/-- A Python float result that may be an ordinary (finite) number, positive
infinity, or NaN.  `compute_summary` and `calc_income_statement` store
`np.nan` in the degenerate branches; `posInf` is never produced by the code
but is needed to state (and refute) the spec sentence that break-even is
reported as infinity. -/
inductive PyVal : Type
  | fin (q : ℚ)
  | posInf
  | nan
deriving DecidableEq

/-- True exactly on ordinary finite values. -/
def PyVal.isFin : PyVal → Bool
  | .fin _ => true
  | _ => false

/-- Embedding of `PlanInputs` (src/app.py): baseline plan assumptions. -/
structure PlanInputs : Type where
  period : String
  periods : ℤ
  sales : ℚ
  var_cost_rate : ℚ
  fixed_cost : ℚ
  opening_cash : ℚ
  capex : ℚ
deriving DecidableEq

/-- Embedding of `Scenario` (src/app.py): a sensitivity scenario.
`price_up` is the source field `price_up_ratio` (renamed only in spelling). -/
structure Scenario : Type where
  name : String
  sales_multiplier : ℚ
  var_cost_rate_pp : ℚ
  fixed_cost_multiplier : ℚ
  price_up : ℚ
deriving DecidableEq

/-- The dictionary returned by `compute_summary` (src/app.py), one field per
key.  The five entries that the source can set to `np.nan` have type `PyVal`. -/
structure Summary : Type where
  sales : ℚ
  var_cost_rate : ℚ
  cm_ratio : ℚ
  gross_profit : ℚ
  fixed_cost : ℚ
  operating_profit : ℚ
  operating_margin : PyVal
  bep_sales : PyVal
  bep_gap : PyVal
  bep_rate : PyVal
  safety_margin : PyVal
deriving DecidableEq

/-- Embedding of `compute_summary` (src/app.py lines 337-375).  The three
NaN-able break-even entries are produced inside `if cm_ratio > 0` in the
source; the Python truthiness tests `if bep_sales` and `if plan.sales` are
rendered as inequality with zero.  `bep_gap` is NaN exactly when
`cm_ratio ≤ 0`, which is how the source's `not np.isnan(bep_gap)` guard on
`safety_margin` is rendered. -/
def compute_summary (plan : PlanInputs) : Summary :=
  let cm_ratio := 1 - plan.var_cost_rate
  let gross_profit := plan.sales * cm_ratio
  let operating_profit := gross_profit - plan.fixed_cost
  let bep_sales : PyVal :=
    if 0 < cm_ratio then .fin (plan.fixed_cost / cm_ratio) else .nan
  let bep_gap : PyVal :=
    if 0 < cm_ratio then .fin (plan.sales - plan.fixed_cost / cm_ratio) else .nan
  let bep_rate : PyVal :=
    if 0 < cm_ratio then
      (if plan.fixed_cost / cm_ratio ≠ 0 then
        .fin (plan.sales / (plan.fixed_cost / cm_ratio)) else .nan)
    else .nan
  let operating_margin : PyVal :=
    if plan.sales ≠ 0 then .fin (operating_profit / plan.sales) else .nan
  let safety_margin : PyVal :=
    if plan.sales ≠ 0 ∧ 0 < cm_ratio then
      .fin ((plan.sales - plan.fixed_cost / cm_ratio) / plan.sales) else .nan
  { sales := plan.sales
    var_cost_rate := plan.var_cost_rate
    cm_ratio := cm_ratio
    gross_profit := gross_profit
    fixed_cost := plan.fixed_cost
    operating_profit := operating_profit
    operating_margin := operating_margin
    bep_sales := bep_sales
    bep_gap := bep_gap
    bep_rate := bep_rate
    safety_margin := safety_margin }

/-- `np.clip(x, lo, hi)` for scalars: `min(max(x, lo), hi)`. -/
def np_clip (x lo hi : ℚ) : ℚ := min (max x lo) hi

/-- Embedding of `apply_scenario` (src/app.py lines 434-448): builds a fresh
`PlanInputs` from the baseline and the scenario multipliers. -/
def apply_scenario (plan : PlanInputs) (scenario : Scenario) : PlanInputs :=
  let adjusted_sales :=
    plan.sales * scenario.sales_multiplier * (1 + scenario.price_up)
  let adjusted_var_rate :=
    np_clip (plan.var_cost_rate + scenario.var_cost_rate_pp) 0 (0.99 : ℚ)
  let adjusted_fixed := plan.fixed_cost * scenario.fixed_cost_multiplier
  { period := plan.period
    periods := plan.periods
    sales := adjusted_sales
    var_cost_rate := adjusted_var_rate
    fixed_cost := adjusted_fixed
    opening_cash := plan.opening_cash
    capex := plan.capex }

/-- State-passing form of `apply_scenario`: the second component is the
caller's plan as left after the call.  The Python source performs no
attribute assignment on its `plan` argument (it only reads fields and
constructs a new `PlanInputs`), so the faithful state-passing embedding
threads the input plan through unchanged. -/
def apply_scenario_call (plan : PlanInputs) (scenario : Scenario) :
    PlanInputs × PlanInputs :=
  (apply_scenario plan scenario, plan)

/-- The code's representation of a sales-percentage-shift scenario with
fractional parameter `sh`: as in the preset `Scenario(name="A. 売上+10%",
sales_multiplier=1.10)` (src/app.py line 175), the multiplier is `1 + sh`
and all other scenario fields keep their dataclass defaults
(`var_cost_rate_pp=0.0`, `fixed_cost_multiplier=1.0`, `price_up_ratio=0.0`). -/
def sales_shift_scenario (nm : String) (sh : ℚ) : Scenario :=
  { name := nm
    sales_multiplier := 1 + sh
    var_cost_rate_pp := 0
    fixed_cost_multiplier := 1
    price_up := 0 }

/-- Embedding of `FinancialInputs` (src/utils.py lines 18-33). -/
structure FinancialInputs : Type where
  fiscal_year : ℤ
  sales : ℚ
  cogs_rate : ℚ
  personnel_cost : ℚ
  marketing_cost : ℚ
  general_admin_cost : ℚ
  depreciation : ℚ
  other_income : ℚ
  interest_payment : ℚ
  tax_rate : ℚ
  initial_cash : ℚ
  capital_expenditure : ℚ
deriving DecidableEq

/-- The line values of the income-statement DataFrame built by
`calc_income_statement` (src/utils.py lines 178-191), one field per row
(sign conventions of the DataFrame's negated display rows are not repeated:
each field holds the computed quantity itself). -/
structure IncomeStatement : Type where
  sales : ℚ
  cogs : ℚ
  gross_profit : ℚ
  operating_expenses : ℚ
  operating_profit : ℚ
  other_income : ℚ
  interest : ℚ
  ordinary_profit : ℚ
  taxes : ℚ
  net_income : ℚ
deriving DecidableEq

/-- The summary dictionary returned by `calc_income_statement`
(src/utils.py lines 193-202).  `ldr` is the source key
`labor_distribution_ratio` (abbreviated as in the spec's KPI name LDR);
it and `break_even_sales` are the two NaN-able entries. -/
structure IncomeSummary : Type where
  gross_margin_rate : ℚ
  operating_margin : ℚ
  ordinary_margin : ℚ
  net_margin : ℚ
  break_even_sales : PyVal
  ldr : PyVal
  net_income : ℚ
  operating_profit : ℚ
deriving DecidableEq

/-- Embedding of `calc_income_statement` (src/utils.py lines 133-203).
Python `raise ValueError(msg)` becomes `Except.error msg`.  The source
validates the four operating-expense items by looping over the dict
`opex_items` in insertion order (人件費, マーケティング費, 一般管理費,
減価償却費) and raising on the first negative one; the loop is unrolled
here in that order.  The Python truthiness guards `if sales else 0` on the
margin ratios are rendered as a test against zero. -/
def calc_income_statement (inputs : FinancialInputs) :
    Except String (IncomeStatement × IncomeSummary) :=
  let sales := inputs.sales
  if sales < 0 then .error "売上高は0以上で入力してください。" else
  let cogs := sales * inputs.cogs_rate
  if cogs < 0 then .error "売上原価率は0〜1の範囲で入力してください。" else
  if (0.95 : ℚ) < inputs.cogs_rate then .error "売上原価率が高すぎます。構造を見直してください。" else
  let gross_profit := sales - cogs
  if inputs.personnel_cost < 0 then .error "人件費はマイナスにできません。" else
  if inputs.marketing_cost < 0 then .error "マーケティング費はマイナスにできません。" else
  if inputs.general_admin_cost < 0 then .error "一般管理費はマイナスにできません。" else
  if inputs.depreciation < 0 then .error "減価償却費はマイナスにできません。" else
  let operating_expenses := inputs.personnel_cost + inputs.marketing_cost +
    inputs.general_admin_cost + inputs.depreciation
  let operating_profit := gross_profit - operating_expenses
  let other_income := inputs.other_income
  let interest := inputs.interest_payment
  if interest < 0 then .error "支払利息は0以上で入力してください。" else
  let ordinary_profit := operating_profit + other_income - interest
  let taxes := max 0 (ordinary_profit * inputs.tax_rate)
  let net_income := ordinary_profit - taxes
  let break_even_sales : PyVal :=
    if 0 < 1 - inputs.cogs_rate then
      .fin (operating_expenses / (1 - inputs.cogs_rate)) else .nan
  let ldr : PyVal :=
    if 0 < gross_profit then .fin (inputs.personnel_cost / gross_profit) else .nan
  .ok
    ({ sales := sales
       cogs := cogs
       gross_profit := gross_profit
       operating_expenses := operating_expenses
       operating_profit := operating_profit
       other_income := other_income
       interest := interest
       ordinary_profit := ordinary_profit
       taxes := taxes
       net_income := net_income },
     { gross_margin_rate := if sales ≠ 0 then gross_profit / sales else 0
       operating_margin := if sales ≠ 0 then operating_profit / sales else 0
       ordinary_margin := if sales ≠ 0 then ordinary_profit / sales else 0
       net_margin := if sales ≠ 0 then net_income / sales else 0
       break_even_sales := break_even_sales
       ldr := ldr
       net_income := net_income
       operating_profit := operating_profit })

/-- `true` exactly when the evaluation returned a statement rather than
raising. -/
def calcSucceeds (inputs : FinancialInputs) : Bool :=
  match calc_income_statement inputs with
  | .ok _ => true
  | .error _ => false

/-- Modelled from the spec: the repository has no `solve_target_profit` and
no line-item plan evaluator under src/; spec sections 4.3-4.5 define them.
`SpecPlan` is a plan whose cost lines are sales-based rates (their rates
summing to `var_rate`) or fixed amounts (summing to `fixed_total`), with
fixed non-operating income `noi_total` and expense `noe_total` — the common
case, in which section 4.4's classification gives variable cost
`var_rate × S` and fixed cost `fixed_total`. -/
structure SpecPlan : Type where
  base_sales : ℚ
  var_rate : ℚ
  fixed_total : ℚ
  noi_total : ℚ
  noe_total : ℚ
deriving DecidableEq

/-- Modelled from the spec: ordinary profit of the section 4.3 evaluator at
sales level `S` for a `SpecPlan` — `ORD = S − var_rate·S − fixed_total +
NOI − NOE = S·(1 − var_rate) − fixed_total + NOI − NOE` (spec sections
4.3 steps 2-5 and 4.5 step 1, where `f` is linear with slope `cm_ratio =
1 − var_rate`). -/
def evaluate_ord (p : SpecPlan) (S : ℚ) : ℚ :=
  S * (1 - p.var_rate) - p.fixed_total + p.noi_total - p.noe_total

/-- Modelled from the spec: the bracket-expansion phase of the target-profit
solver (spec section 4.5 step 3).  While the target is not bracketed and
`high < 1e13`, up to the given number of expansions (40 in the spec), grow
`high` by ×1.6, seeding it to 1,000,000 if it was ≤ 0. -/
def expand_phase (p : SpecPlan) (target : ℚ) : ℕ → ℚ → ℚ → ℚ
  | 0, _, high => high
  | n + 1, low, high =>
    if 0 < (evaluate_ord p low - target) * (evaluate_ord p high - target) ∧
        high < 10 ^ 13 then
      expand_phase p target n low (if high ≤ 0 then 1000000 else high * 1.6)
    else high

/-- Modelled from the spec: the bisection phase of the target-profit solver
(spec section 4.5 steps 4-5).  Each step computes the midpoint, returns it
if ordinary profit there is within 1000 of the target, and otherwise
narrows toward the half that still brackets the target (sign test against
the low endpoint).  Fuel `n` allows `n + 1` midpoint computations; on
exhaustion the final midpoint is returned (the spec's 60-iteration loop
returns its 60th midpoint whether or not the tolerance test on it passes,
so fuel 59 reproduces it exactly). -/
def bisect_phase (p : SpecPlan) (target : ℚ) : ℕ → ℚ → ℚ → ℚ
  | 0, low, high => (low + high) / 2
  | n + 1, low, high =>
    if |evaluate_ord p ((low + high) / 2) - target| ≤ 1000 then (low + high) / 2
    else if (evaluate_ord p low - target) *
        (evaluate_ord p ((low + high) / 2) - target) ≤ 0 then
      bisect_phase p target n low ((low + high) / 2)
    else
      bisect_phase p target n ((low + high) / 2) high

/-- Modelled from the spec: `solve_target_profit(plan, target, sales_low,
sales_high)` (spec section 4.5) — initialize the bracket to
`[max(0, sales_low), max(1.5·sales_low, sales_high)]`, run the expansion
phase (≤ 40 expansions), then the bisection phase (≤ 60 iterations),
always returning a sales value. -/
def solve_target_profit (p : SpecPlan) (target sales_low sales_high : ℚ) : ℚ :=
  let low := max 0 sales_low
  let high := max (1.5 * sales_low) sales_high
  bisect_phase p target 59 low (expand_phase p target 40 low high)

/-- Sample inputs: a small profitable plan for witnesses. -/
def cW : FinancialInputs :=
  ⟨2025, 100, 0.4, 10, 5, 5, 0, 2, 1, 0.5, 0, 0⟩

/-- The statement `calc_income_statement cW` computes. -/
def stW : IncomeStatement := ⟨100, 40, 60, 20, 40, 2, 1, 41, 41/2, 41/2⟩

/-- The summary `calc_income_statement cW` computes. -/
def smW : IncomeSummary :=
  ⟨3/5, 2/5, 41/100, 41/200, .fin (100/3), .fin (1/6), 41/2, 40⟩

/-- Sample inputs with negative sales. -/
def cNeg : FinancialInputs :=
  ⟨2025, -1, 0.4, 1, 1, 1, 1, 0, 0, 0.3, 0, 0⟩

/-- Sample inputs producing a loss (negative ordinary profit). -/
def cL : FinancialInputs :=
  ⟨2025, 100, 0.4, 50, 20, 10, 5, 0, 2, 0.3, 0, 0⟩

/-- The statement `calc_income_statement cL` computes. -/
def stL : IncomeStatement := ⟨100, 40, 60, 85, -25, 0, 2, -27, 0, -27⟩

/-- The summary `calc_income_statement cL` computes. -/
def smL : IncomeSummary :=
  ⟨3/5, -1/4, -27/100, -27/100, .fin (425/3), .fin (5/6), -27, -25⟩

/-- A sample baseline plan (the app's session-state default). -/
def pW : PlanInputs := ⟨"monthly", 12, 1000, 0.45, 450, 200, 0⟩

/-- A plan identical to `pW` on the three fields `compute_summary` reads,
different elsewhere. -/
def pW2 : PlanInputs := ⟨"yearly", 3, 1000, 0.45, 450, 999, 5⟩

/-- A plan whose contribution-margin ratio is zero. -/
def pZeroCM : PlanInputs := ⟨"monthly", 12, 100, 1, 50, 0, 0⟩

/-- A plan whose variable-cost rate lies outside the clip range. -/
def pOdd : PlanInputs := ⟨"monthly", 12, 1000, 1.5, 450, 0, 0⟩

/-- A spec plan with an astronomically large sales baseline. -/
def spBig : SpecPlan := ⟨2 ^ 70, 0, 0, 0, 0⟩

/-- A small spec plan for witnesses. -/
def spW : SpecPlan := ⟨1000, 0.45, 450, 0, 0⟩

/-! ## Theorems -/

/-- C2 (amended part): in `compute_summary`, break-even sales equals
`fixed_cost / cm_ratio` when the contribution-margin ratio is strictly
positive, and is the NaN sentinel when the ratio is zero or negative. -/
theorem bep_sales_spec (plan : PlanInputs) :
    (0 < 1 - plan.var_cost_rate →
      (compute_summary plan).bep_sales =
        PyVal.fin (plan.fixed_cost / (1 - plan.var_cost_rate))) ∧
    (1 - plan.var_cost_rate ≤ 0 →
      (compute_summary plan).bep_sales = PyVal.nan) := by
  constructor
  · intro h
    simp only [compute_summary]
    rw [if_pos h]
  · intro h
    simp only [compute_summary]
    rw [if_neg (not_lt.mpr h)]

/-- C2 (counterexample): at the plan `pZeroCM`, whose contribution-margin
ratio is exactly zero, the break-even entry is NaN and in particular is not
positive infinity, refuting the claim that it "equals +infinity" there. -/
theorem bep_nan_not_infinity_at_zero_cm :
    (compute_summary pZeroCM).cm_ratio = 0 ∧
    (compute_summary pZeroCM).bep_sales = PyVal.nan ∧
    (compute_summary pZeroCM).bep_sales ≠ PyVal.posInf := by
  have h2 : (compute_summary pZeroCM).bep_sales = PyVal.nan := by
    norm_num [compute_summary, pZeroCM]
  refine ⟨by norm_num [compute_summary, pZeroCM], h2, ?_⟩
  rw [h2]
  decide

/-- C2 (witness): both branches of `bep_sales_spec` at concrete plans. -/
theorem bep_sales_spec_witness :
    (compute_summary pW).bep_sales =
      PyVal.fin (pW.fixed_cost / (1 - pW.var_cost_rate)) ∧
    (compute_summary pZeroCM).bep_sales = PyVal.nan :=
  ⟨(bep_sales_spec pW).1 (by norm_num [pW]),
   (bep_sales_spec pZeroCM).2 (by norm_num [pZeroCM])⟩

/-- C5: scenario resolution does not mutate the baseline plan — the
state-passing embedding of `apply_scenario` returns the caller's plan
unchanged — and the scenario result is a freshly constructed `PlanInputs`
built from the baseline fields and the scenario multipliers. -/
theorem apply_scenario_preserves_baseline (plan : PlanInputs) (s : Scenario) :
    (apply_scenario_call plan s).2 = plan ∧
    (apply_scenario_call plan s).1 =
      { period := plan.period
        periods := plan.periods
        sales := plan.sales * s.sales_multiplier * (1 + s.price_up)
        var_cost_rate := np_clip (plan.var_cost_rate + s.var_cost_rate_pp) 0 (0.99 : ℚ)
        fixed_cost := plan.fixed_cost * s.fixed_cost_multiplier
        opening_cash := plan.opening_cash
        capex := plan.capex } :=
  ⟨rfl, rfl⟩

/-- C6 (counterexample): for the baseline `pOdd`, whose variable-cost rate
1.5 lies outside `[0, 0.99]`, a +10% sales-percentage-shift scenario
resolves sales to `base_sales × 1.1` but clamps the variable-cost rate to
0.99, so not all other plan parameters are taken from the baseline. -/
theorem sales_shift_clamps_out_of_range_var_rate :
    (apply_scenario pOdd (sales_shift_scenario "A. 売上+10%" (1/10))).sales =
      pOdd.sales * (1 + 1/10) ∧
    (apply_scenario pOdd (sales_shift_scenario "A. 売上+10%" (1/10))).var_cost_rate ≠
      pOdd.var_cost_rate := by
  constructor
  · norm_num [apply_scenario, sales_shift_scenario, pOdd, np_clip, min_def, max_def]
  · norm_num [apply_scenario, sales_shift_scenario, pOdd, np_clip, min_def, max_def]

/-- C6 (amended): for every baseline plan whose variable-cost rate lies in
the clip range `[0, 0.99]`, a sales-percentage-shift scenario with
fractional parameter `sh` resolves sales to `base_sales × (1 + sh)` and
takes every other plan parameter from the baseline. -/
theorem sales_shift_resolution (plan : PlanInputs) (nm : String) (sh : ℚ)
    (h0 : 0 ≤ plan.var_cost_rate) (h1 : plan.var_cost_rate ≤ 0.99) :
    (apply_scenario plan (sales_shift_scenario nm sh)).sales =
      plan.sales * (1 + sh) ∧
    (apply_scenario plan (sales_shift_scenario nm sh)).var_cost_rate =
      plan.var_cost_rate ∧
    (apply_scenario plan (sales_shift_scenario nm sh)).fixed_cost =
      plan.fixed_cost ∧
    (apply_scenario plan (sales_shift_scenario nm sh)).period = plan.period ∧
    (apply_scenario plan (sales_shift_scenario nm sh)).periods = plan.periods ∧
    (apply_scenario plan (sales_shift_scenario nm sh)).opening_cash =
      plan.opening_cash ∧
    (apply_scenario plan (sales_shift_scenario nm sh)).capex = plan.capex := by
  refine ⟨?_, ?_, ?_, rfl, rfl, rfl, rfl⟩
  · simp only [apply_scenario, sales_shift_scenario]
    ring
  · simp only [apply_scenario, sales_shift_scenario, np_clip, add_zero]
    rw [max_eq_left h0, min_eq_left h1]
  · simp only [apply_scenario, sales_shift_scenario]
    rw [mul_one]

/-- C6 (witness): the amended statement at the in-range plan `pW`. -/
theorem sales_shift_resolution_witness :
    (apply_scenario pW (sales_shift_scenario "A. 売上+10%" (1/10))).sales =
      pW.sales * (1 + 1/10) ∧
    (apply_scenario pW (sales_shift_scenario "A. 売上+10%" (1/10))).var_cost_rate =
      pW.var_cost_rate :=
  ⟨(sales_shift_resolution pW "A. 売上+10%" (1/10) (by norm_num [pW])
      (by norm_num [pW])).1,
   (sales_shift_resolution pW "A. 売上+10%" (1/10) (by norm_num [pW])
      (by norm_num [pW])).2.1⟩

/-- C8: `compute_summary` is deterministic and reads nothing but the plan's
`sales`, `var_cost_rate` and `fixed_cost`: any two plans agreeing on those
three fields (in particular, two identical calls) produce identical
summaries — there is no hidden state. -/
theorem compute_summary_deterministic (p q : PlanInputs)
    (hs : p.sales = q.sales) (hv : p.var_cost_rate = q.var_cost_rate)
    (hf : p.fixed_cost = q.fixed_cost) :
    compute_summary p = compute_summary q := by
  simp only [compute_summary, hs, hv, hf]

/-- C8 (witness): two distinct plans agreeing on the three read fields. -/
theorem compute_summary_deterministic_witness :
    compute_summary pW = compute_summary pW2 ∧ pW ≠ pW2 :=
  ⟨compute_summary_deterministic pW pW2 rfl rfl rfl, by simp [pW, pW2]⟩

/-- C9: every scenario-adjusted plan has its variable-cost rate clamped
into `[0, 0.99]`, hence a contribution-margin ratio of at least 0.01, and
therefore a finite break-even sales value (never the NaN sentinel). -/
theorem apply_scenario_var_rate_clamped_bep_finite
    (plan : PlanInputs) (s : Scenario) :
    0 ≤ (apply_scenario plan s).var_cost_rate ∧
    (apply_scenario plan s).var_cost_rate ≤ 0.99 ∧
    (0.01 : ℚ) ≤ (compute_summary (apply_scenario plan s)).cm_ratio ∧
    ((compute_summary (apply_scenario plan s)).bep_sales).isFin = true := by
  have h0 : 0 ≤ (apply_scenario plan s).var_cost_rate := by
    simp only [apply_scenario, np_clip]
    exact le_min (le_max_right _ _) (by norm_num)
  have h1 : (apply_scenario plan s).var_cost_rate ≤ 0.99 := by
    simp only [apply_scenario, np_clip]
    exact min_le_right _ _
  refine ⟨h0, h1, ?_, ?_⟩
  · simp only [compute_summary]
    linarith
  · simp only [compute_summary]
    rw [if_pos (by linarith : (0:ℚ) < 1 - (apply_scenario plan s).var_cost_rate)]
    rfl

set_option maxHeartbeats 1000000 in
/-- Inversion for a successful `calc_income_statement` call: the returned
line values and the NaN-able labor KPI, expressed in terms of the inputs. -/
theorem calc_ok_elim (i : FinancialInputs) (st : IncomeStatement)
    (sm : IncomeSummary)
    (h : calc_income_statement i = Except.ok (st, sm)) :
    st.sales = i.sales ∧
    st.cogs = i.sales * i.cogs_rate ∧
    st.gross_profit = i.sales - i.sales * i.cogs_rate ∧
    st.operating_expenses =
      i.personnel_cost + i.marketing_cost + i.general_admin_cost +
        i.depreciation ∧
    st.operating_profit = st.gross_profit - st.operating_expenses ∧
    st.other_income = i.other_income ∧
    st.interest = i.interest_payment ∧
    st.ordinary_profit = st.operating_profit + st.other_income - st.interest ∧
    st.taxes = max 0 (st.ordinary_profit * i.tax_rate) ∧
    st.net_income = st.ordinary_profit - st.taxes ∧
    sm.ldr = (if 0 < st.gross_profit then
      PyVal.fin (i.personnel_cost / st.gross_profit) else PyVal.nan) := by
  simp only [calc_income_statement] at h
  by_cases g1 : i.sales < 0
  · rw [if_pos g1] at h
    exact Except.noConfusion h
  rw [if_neg g1] at h
  by_cases g2 : i.sales * i.cogs_rate < 0
  · rw [if_pos g2] at h
    exact Except.noConfusion h
  rw [if_neg g2] at h
  by_cases g3 : (0.95 : ℚ) < i.cogs_rate
  · rw [if_pos g3] at h
    exact Except.noConfusion h
  rw [if_neg g3] at h
  by_cases g4 : i.personnel_cost < 0
  · rw [if_pos g4] at h
    exact Except.noConfusion h
  rw [if_neg g4] at h
  by_cases g5 : i.marketing_cost < 0
  · rw [if_pos g5] at h
    exact Except.noConfusion h
  rw [if_neg g5] at h
  by_cases g6 : i.general_admin_cost < 0
  · rw [if_pos g6] at h
    exact Except.noConfusion h
  rw [if_neg g6] at h
  by_cases g7 : i.depreciation < 0
  · rw [if_pos g7] at h
    exact Except.noConfusion h
  rw [if_neg g7] at h
  by_cases g8 : i.interest_payment < 0
  · rw [if_pos g8] at h
    exact Except.noConfusion h
  rw [if_neg g8] at h
  injection h with hpair
  injection hpair with hst hsm
  subst hst
  subst hsm
  exact ⟨rfl, rfl, rfl, rfl, rfl, rfl, rfl, rfl, rfl, rfl, rfl⟩

set_option maxHeartbeats 1000000 in
/-- C1 (amended): for every numeric input passing the source's validation
(non-negative sales, non-negative computed COGS, COGS rate at most 0.95,
non-negative operating-expense items and interest), the income-statement
evaluation returns a result rather than raising. -/
theorem calc_income_statement_ok_of_valid (i : FinancialInputs)
    (h1 : 0 ≤ i.sales) (h2 : 0 ≤ i.sales * i.cogs_rate)
    (h3 : i.cogs_rate ≤ 0.95) (h4 : 0 ≤ i.personnel_cost)
    (h5 : 0 ≤ i.marketing_cost) (h6 : 0 ≤ i.general_admin_cost)
    (h7 : 0 ≤ i.depreciation) (h8 : 0 ≤ i.interest_payment) :
    calcSucceeds i = true := by
  simp only [calcSucceeds, calc_income_statement]
  rw [if_neg (not_lt.mpr h1), if_neg (not_lt.mpr h2), if_neg (not_lt.mpr h3),
    if_neg (not_lt.mpr h4), if_neg (not_lt.mpr h5), if_neg (not_lt.mpr h6),
    if_neg (not_lt.mpr h7), if_neg (not_lt.mpr h8)]

/-- C1 (witness): the validated sample input evaluates successfully. -/
theorem calc_income_statement_ok_of_valid_witness : calcSucceeds cW = true :=
  calc_income_statement_ok_of_valid cW (by norm_num [cW]) (by norm_num [cW])
    (by norm_num [cW]) (by norm_num [cW]) (by norm_num [cW])
    (by norm_num [cW]) (by norm_num [cW]) (by norm_num [cW])

/-- C1 (counterexample): at negative sales the evaluation does not return a
result — it raises `ValueError` (embedded as `Except.error`), refuting the
claim that the engine never raises for any numeric input, including
negative sales. -/
theorem calc_income_statement_raises_on_negative_sales :
    calc_income_statement cNeg = Except.error "売上高は0以上で入力してください。" ∧
    calcSucceeds cNeg = false := by
  constructor
  · norm_num [calc_income_statement, cNeg]
  · norm_num [calcSucceeds, calc_income_statement, cNeg]

/-- C3: the waterfall identity holds exactly for every successful
income-statement evaluation — gross profit is sales minus total COGS,
operating profit is gross profit minus total operating expenses, ordinary
profit is operating profit plus non-operating income minus non-operating
expense — and likewise in `compute_summary` gross profit is sales minus
variable cost and operating profit is gross profit minus fixed cost. -/
theorem waterfall_identity (i : FinancialInputs) (st : IncomeStatement)
    (sm : IncomeSummary)
    (h : calc_income_statement i = Except.ok (st, sm)) :
    st.gross_profit = st.sales - st.cogs ∧
    st.operating_profit = st.gross_profit - st.operating_expenses ∧
    st.ordinary_profit = st.operating_profit + st.other_income - st.interest ∧
    ∀ plan : PlanInputs,
      (compute_summary plan).gross_profit =
        plan.sales - plan.sales * plan.var_cost_rate ∧
      (compute_summary plan).operating_profit =
        (compute_summary plan).gross_profit - plan.fixed_cost := by
  obtain ⟨hs, hc, hg, -, hop, -, -, hord, -, -, -⟩ := calc_ok_elim i st sm h
  refine ⟨by rw [hg, hs, hc], hop, hord, ?_⟩
  intro plan
  constructor
  · simp only [compute_summary]
    ring
  · simp only [compute_summary]

/-- C3 (witness): the identities at the concrete evaluation of `cW`. -/
theorem waterfall_identity_witness :
    calc_income_statement cW = Except.ok (stW, smW) ∧
    stW.gross_profit = stW.sales - stW.cogs ∧
    stW.operating_profit = stW.gross_profit - stW.operating_expenses ∧
    stW.ordinary_profit = stW.operating_profit + stW.other_income - stW.interest := by
  have hok : calc_income_statement cW = Except.ok (stW, smW) := by
    norm_num [calc_income_statement, cW, stW, smW]
  obtain ⟨e1, e2, e3, -⟩ := waterfall_identity cW stW smW hok
  exact ⟨hok, e1, e2, e3⟩

/-- C7: for every successful evaluation, the labor-distribution KPI equals
personnel cost divided by gross profit when gross profit is strictly
positive, and is the NaN sentinel when gross profit is zero or negative. -/
theorem labor_distribution_spec (i : FinancialInputs) (st : IncomeStatement)
    (sm : IncomeSummary)
    (h : calc_income_statement i = Except.ok (st, sm)) :
    (0 < st.gross_profit →
      sm.ldr = PyVal.fin (i.personnel_cost / st.gross_profit)) ∧
    (st.gross_profit ≤ 0 → sm.ldr = PyVal.nan) := by
  obtain ⟨-, -, -, -, -, -, -, -, -, -, hldr⟩ := calc_ok_elim i st sm h
  constructor
  · intro hg
    rw [hldr, if_pos hg]
  · intro hg
    rw [hldr, if_neg (not_lt.mpr hg)]

/-- C7 (witness): the positive-gross branch at the concrete input `cW`. -/
theorem labor_distribution_spec_witness :
    smW.ldr = PyVal.fin (cW.personnel_cost / stW.gross_profit) :=
  (labor_distribution_spec cW stW smW
      (by norm_num [calc_income_statement, cW, stW, smW])).1
    (by norm_num [stW])

/-- C10: in every successful evaluation, taxes equal
`max 0 (ordinary_profit × tax_rate)`; hence with a non-negative tax rate
taxes are never negative, and net income equals ordinary profit exactly
whenever ordinary profit is zero or negative. -/
theorem taxes_floor_spec (i : FinancialInputs) (st : IncomeStatement)
    (sm : IncomeSummary)
    (h : calc_income_statement i = Except.ok (st, sm))
    (hrate : 0 ≤ i.tax_rate) :
    st.taxes = max 0 (st.ordinary_profit * i.tax_rate) ∧
    0 ≤ st.taxes ∧
    (st.ordinary_profit ≤ 0 → st.net_income = st.ordinary_profit) := by
  obtain ⟨-, -, -, -, -, -, -, -, ht, hn, -⟩ := calc_ok_elim i st sm h
  refine ⟨ht, ?_, ?_⟩
  · rw [ht]
    exact le_max_left _ _
  · intro hord
    have hzero : max 0 (st.ordinary_profit * i.tax_rate) = 0 :=
      max_eq_left (mul_nonpos_iff.mpr (Or.inr ⟨hord, hrate⟩))
    rw [hn, ht, hzero, sub_zero]

/-- C10 (witness): the loss-making concrete input `cL` has ordinary profit
−27, zero taxes, and net income equal to ordinary profit. -/
theorem taxes_floor_spec_witness :
    stL.taxes = max 0 (stL.ordinary_profit * cL.tax_rate) ∧
    0 ≤ stL.taxes ∧ stL.net_income = stL.ordinary_profit := by
  have hok : calc_income_statement cL = Except.ok (stL, smL) := by
    norm_num [calc_income_statement, cL, stL, smL]
  obtain ⟨e1, e2, e3⟩ := taxes_floor_spec cL stL smL hok (by norm_num [cL])
  exact ⟨e1, e2, e3 (by norm_num [stL])⟩

/-- Powers of two are at least one over the rationals. -/
lemma one_le_two_pow_q : ∀ n : ℕ, (1:ℚ) ≤ 2 ^ n := by
  intro n
  induction n with
  | zero => norm_num
  | succ m ih =>
    rw [pow_succ]
    nlinarith

/-- The modelled ordinary profit is linear in sales with slope `cm_ratio`. -/
lemma evaluate_ord_sub (p : SpecPlan) (x y : ℚ) :
    evaluate_ord p x - evaluate_ord p y = (1 - p.var_rate) * (x - y) := by
  simp only [evaluate_ord]
  ring

/-- Ordinary profit at a midpoint is the average of the endpoint values. -/
lemma evaluate_ord_mid (p : SpecPlan) (x y : ℚ) :
    evaluate_ord p ((x + y) / 2) = (evaluate_ord p x + evaluate_ord p y) / 2 := by
  simp only [evaluate_ord]
  ring

/-- If the initial bracket already brackets the target, the expansion phase
returns the upper end unchanged. -/
lemma expand_phase_of_bracketed (p : SpecPlan) (t low high : ℚ)
    (h : (evaluate_ord p low - t) * (evaluate_ord p high - t) ≤ 0) :
    ∀ n, expand_phase p t n low high = high := by
  intro n
  cases n with
  | zero => rfl
  | succ n =>
    simp only [expand_phase]
    rw [if_neg]
    rintro ⟨hgt, -⟩
    linarith

/-- Error bound for the bisection phase: with a nonnegative contribution
margin and the target bracketed, the returned sales level has ordinary
profit within `max 1000 (cm · width / 2 ^ (fuel + 1))` of the target. -/
lemma bisect_phase_err (p : SpecPlan) (t : ℚ) (hcm : 0 ≤ 1 - p.var_rate) :
    ∀ fuel low high, low ≤ high → evaluate_ord p low ≤ t →
      t ≤ evaluate_ord p high →
      |evaluate_ord p (bisect_phase p t fuel low high) - t| ≤
        max 1000 ((1 - p.var_rate) * (high - low) / 2 ^ (fuel + 1)) := by
  intro fuel
  induction fuel with
  | zero =>
    intro low high hlh hl hh
    have h1 := evaluate_ord_sub p high low
    have h2 := evaluate_ord_mid p low high
    simp only [bisect_phase, zero_add, pow_one]
    refine le_trans ?_ (le_max_right _ _)
    rw [abs_le]
    constructor
    · linarith
    · linarith
  | succ n ih =>
    intro low high hlh hl hh
    simp only [bisect_phase]
    split_ifs with htol hsign
    · exact le_trans htol (le_max_left _ _)
    · have hmid : low ≤ (low + high) / 2 := by linarith
      have hmt : t ≤ evaluate_ord p ((low + high) / 2) := by
        rcases lt_or_eq_of_le hl with hlt | heq
        · by_contra hcon
          push_neg at hcon
          have hpos : 0 < (evaluate_ord p low - t) *
              (evaluate_ord p ((low + high) / 2) - t) :=
            mul_pos_of_neg_of_neg (by linarith) (by linarith)
          linarith
        · have hsub := evaluate_ord_sub p ((low + high) / 2) low
          have hP := mul_nonneg hcm (by linarith : (0:ℚ) ≤ (low + high) / 2 - low)
          linarith
      have hrec := ih low ((low + high) / 2) hmid hl hmt
      refine le_trans hrec (le_of_eq ?_)
      have hne : (2:ℚ) ^ (n + 1) ≠ 0 := by positivity
      have hw : (1 - p.var_rate) * ((low + high) / 2 - low) / 2 ^ (n + 1) =
          (1 - p.var_rate) * (high - low) / 2 ^ (n + 1 + 1) := by
        field_simp
        ring
      rw [hw]
    · have hmid : (low + high) / 2 ≤ high := by linarith
      have hmt : evaluate_ord p ((low + high) / 2) ≤ t := by
        by_contra hcon
        push_neg at hcon
        exact hsign (mul_nonpos_iff.mpr (Or.inr ⟨by linarith, by linarith⟩))
      have hrec := ih ((low + high) / 2) high hmid hmt hh
      refine le_trans hrec (le_of_eq ?_)
      have hne : (2:ℚ) ^ (n + 1) ≠ 0 := by positivity
      have hw : (1 - p.var_rate) * (high - (low + high) / 2) / 2 ^ (n + 1) =
          (1 - p.var_rate) * (high - low) / 2 ^ (n + 1 + 1) := by
        field_simp
        ring
      rw [hw]

/-- C4 (amended): called as `solve_target_profit(plan, target, 0,
2·base_sales)` with a positive contribution-margin ratio, a target within
the bracket's achievable range, and a bracket small enough for sixty
halvings to reach the absolute tolerance (`cm_ratio · base_sales ≤
1000 · 2^59`), the solver returns a sales level whose ordinary profit is
within 1000 currency units of the target; the solver is a total function,
so it returns a result in every case. -/
theorem solve_target_profit_within_tolerance (p : SpecPlan) (t : ℚ)
    (hcm : 0 < 1 - p.var_rate) (hB : 0 ≤ p.base_sales)
    (hlo : evaluate_ord p 0 ≤ t)
    (hhi : t ≤ evaluate_ord p (2 * p.base_sales))
    (hmag : (1 - p.var_rate) * p.base_sales ≤ 1000 * 2 ^ 59) :
    |evaluate_ord p (solve_target_profit p t 0 (2 * p.base_sales)) - t| ≤ 1000 := by
  have hprod : (evaluate_ord p 0 - t) *
      (evaluate_ord p (2 * p.base_sales) - t) ≤ 0 :=
    mul_nonpos_iff.mpr (Or.inr ⟨by linarith, by linarith⟩)
  have hhigh : max ((1.5 : ℚ) * 0) (2 * p.base_sales) = 2 * p.base_sales := by
    rw [mul_zero]
    exact max_eq_right (by linarith)
  simp only [solve_target_profit, max_self]
  rw [hhigh, expand_phase_of_bracketed p t 0 (2 * p.base_sales) hprod 40]
  refine le_trans (bisect_phase_err p t (le_of_lt hcm) 59 0 (2 * p.base_sales)
    (by linarith) hlo hhi) ?_
  have hbound : (1 - p.var_rate) * (2 * p.base_sales - 0) / 2 ^ (59 + 1) ≤ 1000 := by
    rw [sub_zero, div_le_iff₀ (by positivity)]
    have hps : (2:ℚ) ^ (59 + 1) = 2 ^ 59 * 2 := pow_succ 2 59
    rw [hps]
    nlinarith [hmag]
  exact max_le le_rfl hbound

/-- C4 (witness): a concrete solvable instance of the amended theorem. -/
theorem solve_target_profit_within_tolerance_witness :
    |evaluate_ord spW (solve_target_profit spW 0 0 (2 * spW.base_sales)) - 0| ≤ 1000 :=
  solve_target_profit_within_tolerance spW 0 (by norm_num [spW])
    (by norm_num [spW]) (by norm_num [evaluate_ord, spW])
    (by norm_num [evaluate_ord, spW]) (by norm_num [spW])

/-- The evaluator of the plan `spBig` is the identity map on sales. -/
lemma evaluate_ord_spBig (x : ℚ) : evaluate_ord spBig x = x := by
  simp [evaluate_ord, spBig]

/-- Trace of the bisection phase on `spBig` with target 0: the lower end
stays pinned at 0, the upper end halves every iteration, and the final
midpoint `high / 2 ^ (fuel + 1)` is returned (the tolerance test never
fires while the midpoints stay above 1000). -/
lemma bisect_spBig : ∀ fuel : ℕ, ∀ high : ℚ, 2000 * 2 ^ fuel < high →
    bisect_phase spBig 0 fuel 0 high = high / 2 ^ (fuel + 1) := by
  intro fuel
  induction fuel with
  | zero =>
    intro high hh
    simp only [bisect_phase, zero_add, pow_one]
  | succ n ih =>
    intro high hh
    have hpos : 0 < high := lt_trans (by positivity) hh
    have hps : (2:ℚ) ^ (n + 1) = 2 ^ n * 2 := pow_succ 2 n
    have h2 : 2000 * 2 ^ n < high / 2 := by
      rw [lt_div_iff₀ (by norm_num : (0:ℚ) < 2)]
      rw [hps] at hh
      linarith
    have hne : ¬(|high / 2| ≤ 1000) := by
      rw [abs_of_pos (div_pos hpos (by norm_num : (0:ℚ) < 2))]
      intro hcon
      have h1 := one_le_two_pow_q (n + 1)
      linarith
    simp only [bisect_phase, evaluate_ord_spBig, zero_add, sub_zero, sub_self,
      zero_mul]
    rw [if_neg hne, if_pos (le_refl (0:ℚ)), ih (high / 2) h2]
    ring

/-- C4 (counterexample): for the plan `spBig` (base sales `2^70`, full
contribution margin, no fixed cost), the target 0 is reachable — the
contribution-margin ratio is positive and 0 lies between the ordinary
profits at the bracket ends — yet the solver called on the bracket
`[0, 2·base_sales]` returns the sales level 2048, whose ordinary profit
misses the target by 2048 > 1000: sixty bisection iterations cannot reach
the absolute tolerance from a bracket this wide. -/
theorem solve_target_profit_tolerance_counterexample :
    0 < 1 - spBig.var_rate ∧
    evaluate_ord spBig 0 ≤ 0 ∧
    (0:ℚ) ≤ evaluate_ord spBig (2 * spBig.base_sales) ∧
    ¬(|evaluate_ord spBig
        (solve_target_profit spBig 0 0 (2 * spBig.base_sales)) - 0| ≤ 1000) := by
  have hsolve : solve_target_profit spBig 0 0 (2 * spBig.base_sales) = 2048 := by
    have hhigh : max ((1.5 : ℚ) * 0) (2 * spBig.base_sales) =
        2 * spBig.base_sales := by
      rw [mul_zero]
      exact max_eq_right (by norm_num [spBig])
    simp only [solve_target_profit, max_self]
    rw [hhigh, expand_phase_of_bracketed spBig 0 0 (2 * spBig.base_sales)
      (by rw [evaluate_ord_spBig, evaluate_ord_spBig]; norm_num) 40]
    rw [bisect_spBig 59 (2 * spBig.base_sales) (by norm_num [spBig])]
    norm_num [spBig]
  refine ⟨by norm_num [spBig], by rw [evaluate_ord_spBig], ?_, ?_⟩
  · rw [evaluate_ord_spBig]
    norm_num [spBig]
  · rw [hsolve, evaluate_ord_spBig]
    norm_num [abs_le]
